import Mathlib

/-!
Shallow embedding of xvf3800_doa.py, a small USB register-access utility for
an XVF3800 sound-direction device.

Modelling conventions:
- Bytes and wire words are Nat with explicit bounds or mod where overflow
  matters.
- Python float values handed to struct.pack with format f are modelled by the
  32-bit IEEE-754 single-precision bit pattern of the (already rounded)
  single, a Nat below 2 ^ 32; struct.pack serialises that pattern in
  little-endian byte order and struct.unpack with format <f reads it back.
  This captures the byte-level behaviour exactly while leaving the
  double-to-single rounding (which the spec sets aside) outside the model.
- A raised Python exception is an Except.error carrying a PyError value; the
  distinct ValueError messages of the source are distinct constructors.
- The USB transport is external: read is modelled as a function of the raw
  response bytes the device would return, and the control-transfer request
  parameters are computed separately, exactly as the source computes them.
-/

/-- One row of the PARAMETERS table of the source:
(resid, cmdid, length, access mode, data type). -/
structure Param where
  resid : Nat
  cmdid : Nat
  count : Nat
  access : String
  dtype : String
deriving DecidableEq, Repr

/-- The PARAMETERS dictionary of the source, line by line. -/
def PARAMETERS : String → Option Param := fun name =>
  if name = "VERSION" then some ⟨48, 0, 3, "ro", "uint8"⟩
  else if name = "AEC_AZIMUTH_VALUES" then some ⟨33, 75, 16, "ro", "radians"⟩
  else if name = "DOA_VALUE" then some ⟨20, 18, 4, "ro", "uint16"⟩
  else if name = "REBOOT" then some ⟨48, 7, 1, "wo", "uint8"⟩
  else none

/-- usb.util.CTRL_OUT. -/
def CTRL_OUT : Nat := 0x00

/-- usb.util.CTRL_IN. -/
def CTRL_IN : Nat := 0x80

/-- usb.util.CTRL_TYPE_VENDOR. -/
def CTRL_TYPE_VENDOR : Nat := 0x40

/-- usb.util.CTRL_RECIPIENT_DEVICE. -/
def CTRL_RECIPIENT_DEVICE : Nat := 0x00

/-- Python exceptions the embedded fragments can raise.  The two ValueError
sites of ReSpeaker.write are kept distinct, since they carry distinct
messages (read-only violation versus element-count mismatch). -/
inductive PyError where
  | valueErrorReadOnly (name : String)
  | valueErrorCountMismatch (name : String) (expected : Nat)
  | overflowError
  | structError
  | indexError
deriving DecidableEq, Repr

/-- The payload accumulation of ReSpeaker.write: struct.pack of each 32-bit
pattern into four little-endian bytes (format f once the value is rounded
to single precision, and format i likewise at byte level for in-range
values), concatenated in order. -/
def packLE32 : List Nat → List Nat
  | [] => []
  | v :: rest =>
      v % 256 :: v / 256 % 256 :: v / 65536 % 256 :: v / 16777216 % 256 :: packLE32 rest

/-- struct.unpack with a format of consecutive <f items: read four bytes at a
time, little-endian, into 32-bit patterns.  The exact-length check that
struct.unpack performs is made separately by the caller (decodeResponse),
mirroring the point where struct.error arises. -/
def unpackFloats : List Nat → List Nat
  | b0 :: b1 :: b2 :: b3 :: rest =>
      (b0 + b1 * 256 + b2 * 65536 + b3 * 16777216) :: unpackFloats rest
  | _ => []

/-- The payload-encoding loop of ReSpeaker.write (lines 39 to 49): dispatch on
the dtype string; float and radians pack each value as 4 little-endian bytes
of its single-precision pattern; char and uint8 emit one byte per value, with
int.to_bytes raising OverflowError on a value at or above 256; the remaining
branch packs format i, modelled at byte level for the nonnegative in-range
values a Nat can denote. -/
def encodePayload (p : Param) (data_list : List Nat) : Except PyError (List Nat) :=
  if p.dtype = "float" ∨ p.dtype = "radians" then
    .ok (packLE32 data_list)
  else if p.dtype = "char" ∨ p.dtype = "uint8" then
    if data_list.all (fun v => v < 256) then .ok data_list else .error .overflowError
  else
    .ok (packLE32 data_list)

/-- The host-to-device control transfer ReSpeaker.write issues. -/
structure WriteRequest where
  bmRequestType : Nat
  bRequest : Nat
  wValue : Nat
  wIndex : Nat
  payload : List Nat
deriving DecidableEq, Repr

/-- Observable outcome of ReSpeaker.write: the unknown-name early return (no
transfer, no exception), a raised exception, or an issued transfer. -/
inductive WriteOutcome where
  | skipped
  | raised (e : PyError)
  | issued (req : WriteRequest)
deriving DecidableEq, Repr

/-- ReSpeaker.write: unknown names return silently; then the read-only check,
then the element-count check, in that order; then the payload is encoded and
the vendor OUT control transfer issued with wValue = cmdid and
wIndex = resid. -/
def write (name : String) (data_list : List Nat) : WriteOutcome :=
  match PARAMETERS name with
  | none => .skipped
  | some p =>
    if p.access = "ro" then .raised (.valueErrorReadOnly name)
    else if data_list.length ≠ p.count then
      .raised (.valueErrorCountMismatch name p.count)
    else
      match encodePayload p data_list with
      | .error e => .raised e
      | .ok payload =>
          .issued ⟨CTRL_OUT ||| CTRL_TYPE_VENDOR ||| CTRL_RECIPIENT_DEVICE,
                   0, p.cmdid, p.resid, payload⟩

/-- The device-to-host control transfer ReSpeaker.read issues. -/
structure ReadRequest where
  bmRequestType : Nat
  bRequest : Nat
  wValue : Nat
  wIndex : Nat
  wLength : Nat
deriving DecidableEq, Repr

/-- The request half of ReSpeaker.read (lines 62 to 81): none for an unknown
name; otherwise a vendor IN transfer with wValue = 0x80 ||| cmdid,
wIndex = resid and requested length count + 1 (one extra status byte). -/
def readRequest (name : String) : Option ReadRequest :=
  (PARAMETERS name).map fun p =>
    ⟨CTRL_IN ||| CTRL_TYPE_VENDOR ||| CTRL_RECIPIENT_DEVICE,
     0, 0x80 ||| p.cmdid, p.resid, p.count + 1⟩

/-- What ReSpeaker.read hands back: either the raw byte list (the tolist
branches) or the tuple of unpacked single-precision patterns (the radians
branch). -/
inductive DecodeResult where
  | bytes (l : List Nat)
  | floats (l : List Nat)
deriving DecidableEq, Repr

/-- The decode half of ReSpeaker.read (lines 83 to 97), applied to the raw
response bytes: uint8, uint16 and the fallback branch return the bytes
unchanged; radians computes num_values = (length - 1) / 4 with
length = count + 1, slices bytes 1 to length - 1, and unpacks them as
little-endian singles, struct.unpack raising struct.error unless the slice
is exactly 4 * num_values bytes long. -/
def decodeResponse (p : Param) (response : List Nat) : Except PyError DecodeResult :=
  let length := p.count + 1
  if p.dtype = "uint8" then .ok (.bytes response)
  else if p.dtype = "radians" then
    let num_values := (length - 1) / 4
    let slice := (response.drop 1).take (length - 1)
    if slice.length = 4 * num_values then .ok (.floats (unpackFloats slice))
    else .error .structError
  else if p.dtype = "uint16" then .ok (.bytes response)
  else .ok (.bytes response)

/-- ReSpeaker.read as a whole, as a function of the raw response the device
returns to the issued transfer: none models the silent early return on an
unknown name. -/
def read (name : String) (response : List Nat) : Option (Except PyError DecodeResult) :=
  (PARAMETERS name).map fun p => decodeResponse p response

/-- A USB device as discovery sees it: vendor id, product id, and a tag
distinguishing physically distinct devices with equal ids. -/
structure Device where
  idVendor : Nat
  idProduct : Nat
  tag : Nat
deriving DecidableEq, Repr

/-- The session object: wraps one device handle. -/
structure ReSpeaker where
  dev : Device
deriving DecidableEq, Repr

/-- usb.core.find with idVendor and idProduct: first device on the bus
matching both ids. -/
def usbCoreFindVidPid (bus : List Device) (vid pid : Nat) : Option Device :=
  bus.find? fun d => d.idVendor == vid && d.idProduct == pid

/-- usb.core.find with idVendor only: first device on the bus with that
vendor id. -/
def usbCoreFindVid (bus : List Device) (vid : Nat) : Option Device :=
  bus.find? fun d => d.idVendor == vid

/-- The candidate id pairs of find, in source order. -/
def vids_pids : List (Nat × Nat) := [(0x2886, 0x001A), (0x2886, 0x0018)]

/-- The for-loop of find over the candidate pairs: first candidate that
matches a connected device wins. -/
def findFirstPair (bus : List Device) : List (Nat × Nat) → Option Device
  | [] => none
  | (vid, pid) :: rest =>
    match usbCoreFindVidPid bus vid pid with
    | some d => some d
    | none => findFirstPair bus rest

/-- The find function of the source: try the candidate pairs in order, fall
back to a vendor-only match, otherwise report no device (None). -/
def find (bus : List Device) : Option ReSpeaker :=
  match findFirstPair bus vids_pids with
  | some d => some ⟨d⟩
  | none =>
    match usbCoreFindVid bus 0x2886 with
    | some d => some ⟨d⟩
    | none => none

/-- Python list indexing: doa i raises IndexError when i is out of range. -/
def pyIndex (l : List Nat) (i : Nat) : Except PyError Nat :=
  match l.get? i with
  | some v => .ok v
  | none => .error .indexError

/-- The DOA_VALUE handling block of the polling loop (lines 142 to 158),
with every subscript modelled by pyIndex so that an out-of-range access
surfaces as indexError: when the byte list is non-empty, status is byte 0,
angle_raw is byte 1 or-ed with byte 2 shifted left 8 when at least 3 bytes
are present, byte 1 alone when exactly 2 are, and None otherwise, and
speech_flag is byte 3 when more than 3 bytes are present.  An empty list
skips the block entirely (the ok none outcome). -/
def doaHandle (doa : List Nat) : Except PyError (Option (Nat × Option Nat × Option Nat)) :=
  if doa.length > 0 then do
    let status ← pyIndex doa 0
    let angle_raw ←
      if 3 ≤ doa.length then do
        let b1 ← pyIndex doa 1
        let b2 ← pyIndex doa 2
        pure (some (b1 ||| (b2 <<< 8)))
      else if 2 ≤ doa.length then do
        let b1 ← pyIndex doa 1
        pure (some b1)
      else
        pure (none : Option Nat)
    let speech_flag ←
      if 3 < doa.length then do
        let b3 ← pyIndex doa 3
        pure (some b3)
      else
        pure (none : Option Nat)
    pure (some (status, angle_raw, speech_flag))
  else
    pure none

/-- unpackFloats turns 4 k bytes into k words and ignores a trailing
fragment shorter than 4 bytes. -/
theorem unpackFloats_length : (l : List Nat) → (unpackFloats l).length = l.length / 4
  | [] => by simp [unpackFloats]
  | [_] => by simp [unpackFloats]
  | [_, _] => by simp [unpackFloats]
  | [_, _, _] => by simp [unpackFloats]
  | _ :: _ :: _ :: _ :: rest => by
      simp only [unpackFloats, List.length_cons, unpackFloats_length rest]
      omega

/-- unpackFloats inverts packLE32 on 32-bit patterns. -/
theorem unpackFloats_packLE32 : (v : List Nat) → (∀ w ∈ v, w < 2 ^ 32) →
    unpackFloats (packLE32 v) = v
  | [], _ => rfl
  | w :: rest, h => by
      have hw : w < 2 ^ 32 := h w (List.mem_cons_self w rest)
      have hrest := unpackFloats_packLE32 rest fun x hx => h x (List.mem_cons_of_mem w hx)
      have hw4 : w % 256 + w / 256 % 256 * 256 + w / 65536 % 256 * 65536
          + w / 16777216 % 256 * 16777216 = w := by omega
      simp only [packLE32, unpackFloats, hrest, hw4]

/-- Taking a 4 k byte head of a packed list packs the k value head. -/
theorem packLE32_take : (v : List Nat) → (k : Nat) → k ≤ v.length →
    (packLE32 v).take (4 * k) = packLE32 (v.take k)
  | _, 0, _ => by simp [packLE32]
  | w :: rest, k + 1, hk => by
      have h4 : 4 * (k + 1) = 4 * k + 1 + 1 + 1 + 1 := by omega
      have ih := packLE32_take rest k (by simpa using hk)
      simp only [packLE32, h4, List.take_succ_cons, List.take_cons, ih]

/-- packLE32 emits four bytes per value. -/
theorem packLE32_length : (v : List Nat) → (packLE32 v).length = 4 * v.length
  | [] => rfl
  | w :: rest => by
      simp only [packLE32, packLE32_length rest, List.length_cons]
      omega

/-- Enumeration of the PARAMETERS table: a successful lookup is one of the
four rows of the source dictionary. -/
theorem PARAMETERS_cases (name : String) (p : Param) (h : PARAMETERS name = some p) :
    (name = "VERSION" ∧ p = ⟨48, 0, 3, "ro", "uint8"⟩) ∨
    (name = "AEC_AZIMUTH_VALUES" ∧ p = ⟨33, 75, 16, "ro", "radians"⟩) ∨
    (name = "DOA_VALUE" ∧ p = ⟨20, 18, 4, "ro", "uint16"⟩) ∨
    (name = "REBOOT" ∧ p = ⟨48, 7, 1, "wo", "uint8"⟩) := by
  unfold PARAMETERS at h
  split_ifs at h with h1 h2 h3 h4
  · exact Or.inl ⟨h1, (Option.some.inj h).symm⟩
  · exact Or.inr (Or.inl ⟨h2, (Option.some.inj h).symm⟩)
  · exact Or.inr (Or.inr (Or.inl ⟨h3, (Option.some.inj h).symm⟩))
  · exact Or.inr (Or.inr (Or.inr ⟨h4, (Option.some.inj h).symm⟩))

/-- Unfolding lemma: on a registered name, read decodes the response with the
looked-up row. -/
theorem read_eq_some (name : String) (p : Param) (response : List Nat)
    (h : PARAMETERS name = some p) :
    read name response = some (decodeResponse p response) := by
  show (PARAMETERS name).map (fun q => decodeResponse q response) = _
  rw [h]
  rfl

/-- Unfolding lemma: on an unknown name, read produces no value. -/
theorem read_eq_none (name : String) (response : List Nat)
    (h : PARAMETERS name = none) :
    read name response = none := by
  show (PARAMETERS name).map (fun q => decodeResponse q response) = _
  rw [h]
  rfl

/-- Unfolding lemma: decode of the one radians row, written out.  The slice
taken is bytes 1 to 16 of the response, and struct.unpack demands exactly
4 * num_values = 16 bytes, num_values being (length - 1) / 4 = 4. -/
theorem decodeResponse_radians_eq (response : List Nat) :
    decodeResponse ⟨33, 75, 16, "ro", "radians"⟩ response
      = if ((response.drop 1).take 16).length = 4 * 4 then
          Except.ok (DecodeResult.floats (unpackFloats ((response.drop 1).take 16)))
        else Except.error PyError.structError := rfl

/-- Claim C1 counterexample: AEC_AZIMUTH_VALUES has table count 16, read on a
full 17-byte response succeeds, but the decoded float list has 4 elements,
not 16 — the radians decode divides the table count by 4. -/
theorem read_radians_counterexample :
    PARAMETERS "AEC_AZIMUTH_VALUES" = some ⟨33, 75, 16, "ro", "radians"⟩ ∧
    read "AEC_AZIMUTH_VALUES" (List.replicate 17 0)
      = some (.ok (.floats [0, 0, 0, 0])) ∧
    ([0, 0, 0, 0] : List Nat).length ≠ 16 :=
  ⟨rfl, rfl, by decide⟩

/-- Claim C1 (amended): for every radians register, read requests
count + 1 bytes, and decoding a full response skips the header byte and
unpacks bytes 1 to count into count / 4 little-endian IEEE-754 singles —
the table count is consumed as a byte length on the read path, so
AEC_AZIMUTH_VALUES yields 4 floats, not 16. -/
theorem read_radians_quarter_count :
    ∀ (name : String) (p : Param), PARAMETERS name = some p → p.dtype = "radians" →
      (∃ r : ReadRequest, readRequest name = some r ∧ r.wLength = p.count + 1) ∧
      ∀ response : List Nat, response.length = p.count + 1 →
        read name response = some (.ok (.floats
          (unpackFloats ((response.drop 1).take p.count)))) ∧
        (unpackFloats ((response.drop 1).take p.count)).length = p.count / 4 := by
  intro name p h hdt
  rcases PARAMETERS_cases name p h with ⟨hn, hp⟩ | ⟨hn, hp⟩ | ⟨hn, hp⟩ | ⟨hn, hp⟩
  · subst hp; exact absurd hdt (by decide)
  · subst hn; subst hp
    constructor
    · exact ⟨_, rfl, rfl⟩
    · intro response hlen
      have hlen17 : response.length = 17 := hlen
      have hslice : ((response.drop 1).take 16).length = 16 := by
        simp [List.length_take, List.length_drop, hlen17]
      constructor
      · rw [read_eq_some "AEC_AZIMUTH_VALUES" ⟨33, 75, 16, "ro", "radians"⟩ response rfl,
          decodeResponse_radians_eq, if_pos (by rw [hslice])]
      · rw [unpackFloats_length, hslice]
  · subst hp; exact absurd hdt (by decide)
  · subst hp; exact absurd hdt (by decide)

/-- Claim C1 witness: a full 17-byte response on AEC_AZIMUTH_VALUES decodes
to the unpacked slice, of length 16 / 4. -/
theorem read_radians_quarter_count_witness :
    read "AEC_AZIMUTH_VALUES" (List.replicate 17 1)
      = some (.ok (.floats
          (unpackFloats (((List.replicate 17 1).drop 1).take 16)))) ∧
    (unpackFloats (((List.replicate 17 1).drop 1).take 16)).length = 16 / 4 :=
  (read_radians_quarter_count "AEC_AZIMUTH_VALUES" ⟨33, 75, 16, "ro", "radians"⟩
    rfl rfl).2 (List.replicate 17 1) (by decide)

/-- Claim C2 counterexample: encoding the 16-value list 0..15 for the radians
register and decoding the bytes with a status byte prepended returns only
the first four values, not the original list. -/
theorem radians_roundtrip_counterexample :
    (List.range 16).length = 16 ∧
    encodePayload ⟨33, 75, 16, "ro", "radians"⟩ (List.range 16)
      = .ok (packLE32 (List.range 16)) ∧
    read "AEC_AZIMUTH_VALUES" (0 :: packLE32 (List.range 16))
      = some (.ok (.floats [0, 1, 2, 3])) ∧
    ([0, 1, 2, 3] : List Nat) ≠ List.range 16 :=
  ⟨by decide, rfl, rfl, by decide⟩

/-- Claim C2 (amended): for the radians encoding, encoding a value list of
the declared count and decoding the bytes with an arbitrary status byte
prepended yields exactly the first count / 4 values back (bit-exact on
single-precision patterns), the remaining values being dropped by the
byte-counted decode. -/
theorem radians_roundtrip_quarter :
    ∀ (name : String) (p : Param), PARAMETERS name = some p → p.dtype = "radians" →
      ∀ (v : List Nat) (status : Nat), v.length = p.count →
        (∀ w ∈ v, w < 2 ^ 32) →
        encodePayload p v = .ok (packLE32 v) ∧
        read name (status :: packLE32 v)
          = some (.ok (.floats (v.take (p.count / 4)))) := by
  intro name p h hdt v status hv hbound
  rcases PARAMETERS_cases name p h with ⟨hn, hp⟩ | ⟨hn, hp⟩ | ⟨hn, hp⟩ | ⟨hn, hp⟩
  · subst hp; exact absurd hdt (by decide)
  · subst hn; subst hp
    refine ⟨rfl, ?_⟩
    have hv16 : v.length = 16 := hv
    have htake : ((status :: packLE32 v).drop 1).take 16 = packLE32 (v.take 4) := by
      show (packLE32 v).take 16 = packLE32 (v.take 4)
      exact packLE32_take v 4 (by omega)
    have hlen4 : (packLE32 (v.take 4)).length = 16 := by
      rw [packLE32_length]
      simp [List.length_take, hv16]
    rw [read_eq_some "AEC_AZIMUTH_VALUES" ⟨33, 75, 16, "ro", "radians"⟩
        (status :: packLE32 v) rfl,
      decodeResponse_radians_eq, htake, if_pos (by rw [hlen4]),
      unpackFloats_packLE32 (v.take 4) fun w hw => hbound w (List.take_subset 4 v hw)]
    rfl
  · subst hp; exact absurd hdt (by decide)
  · subst hp; exact absurd hdt (by decide)

/-- Claim C2 witness: the constant list of sixteen 3s encodes and decodes
back to its first four elements. -/
theorem radians_roundtrip_quarter_witness :
    encodePayload ⟨33, 75, 16, "ro", "radians"⟩ (List.replicate 16 3)
      = .ok (packLE32 (List.replicate 16 3)) ∧
    read "AEC_AZIMUTH_VALUES" (9 :: packLE32 (List.replicate 16 3))
      = some (.ok (.floats ((List.replicate 16 3).take (16 / 4)))) :=
  radians_roundtrip_quarter "AEC_AZIMUTH_VALUES" ⟨33, 75, 16, "ro", "radians"⟩
    rfl rfl (List.replicate 16 3) 9 (by decide) (by decide)

/-- Claim C3 counterexample: VERSION is a registered name and the empty value
list has the wrong length for it, yet write raises the read-only ValueError,
not the count-mismatch one — the access check fires first. -/
theorem write_count_mismatch_counterexample :
    PARAMETERS "VERSION" = some ⟨48, 0, 3, "ro", "uint8"⟩ ∧
    ([] : List Nat).length ≠ 3 ∧
    write "VERSION" [] = .raised (.valueErrorReadOnly "VERSION") ∧
    write "VERSION" [] ≠ .raised (.valueErrorCountMismatch "VERSION" 3) :=
  ⟨rfl, by decide, rfl, by decide⟩

/-- Claim C3 (amended): for every registered name whose access mode is not
read-only, a write whose value count differs from the declared element count
raises the count-mismatch ValueError; on read-only registers the read-only
check fires first instead. -/
theorem write_count_mismatch_writable :
    ∀ (name : String) (p : Param) (values : List Nat),
      PARAMETERS name = some p → p.access ≠ "ro" → values.length ≠ p.count →
      write name values = .raised (.valueErrorCountMismatch name p.count) := by
  intro name p values h hac hlen
  simp only [write, h]
  rw [if_neg hac, if_pos hlen]

/-- Claim C3 witness: REBOOT is write-only with element count 1, and writing
it an empty list raises the count-mismatch error. -/
theorem write_count_mismatch_writable_witness :
    write "REBOOT" [] = .raised (.valueErrorCountMismatch "REBOOT" 1) :=
  write_count_mismatch_writable "REBOOT" ⟨48, 7, 1, "wo", "uint8"⟩ [] rfl
    (by decide) (by decide)

/-- Claim C4: a write to any read-only register raises the read-only
ValueError whatever the values are, and no transfer is issued (the outcome
is raised, not issued). -/
theorem write_readonly_access_denied :
    ∀ (name : String) (p : Param) (values : List Nat),
      PARAMETERS name = some p → p.access = "ro" →
      write name values = .raised (.valueErrorReadOnly name) := by
  intro name p values h hro
  simp only [write, h]
  rw [if_pos hro]

/-- Claim C4 witness: writing the read-only VERSION register raises the
read-only error. -/
theorem write_readonly_access_denied_witness :
    write "VERSION" [1, 2, 3] = .raised (.valueErrorReadOnly "VERSION") :=
  write_readonly_access_denied "VERSION" ⟨48, 0, 3, "ro", "uint8"⟩ [1, 2, 3] rfl rfl

/-- Claim C5: on a name absent from the PARAMETERS table, write returns
silently with no transfer and no exception, and read issues no request and
returns no value. -/
theorem unknown_name_silent :
    ∀ name : String, PARAMETERS name = none →
      (∀ values : List Nat, write name values = .skipped) ∧
      readRequest name = none ∧
      (∀ response : List Nat, read name response = none) := by
  intro name h
  refine ⟨fun values => ?_, ?_, fun response => ?_⟩
  · simp [write, h]
  · simp [readRequest, h]
  · exact read_eq_none name response h

/-- Claim C5 witness: the unregistered name SPEECH_DETECTED is skipped by
write and produces no request and no value on read. -/
theorem unknown_name_silent_witness :
    write "SPEECH_DETECTED" [1] = .skipped ∧
    readRequest "SPEECH_DETECTED" = none ∧
    read "SPEECH_DETECTED" [0, 1] = none :=
  ⟨(unknown_name_silent "SPEECH_DETECTED" rfl).1 [1],
   (unknown_name_silent "SPEECH_DETECTED" rfl).2.1,
   (unknown_name_silent "SPEECH_DETECTED" rfl).2.2 [0, 1]⟩

/-- Claim C6: for every registered name, the read transfer carries
bRequest 0, wValue = 0x80 or-ed with the command id, wIndex = the resource
id, and requested length = element count + 1. -/
theorem read_request_shape :
    ∀ (name : String) (p : Param), PARAMETERS name = some p →
      ∃ r : ReadRequest, readRequest name = some r ∧
        r.wValue = 0x80 ||| p.cmdid ∧ r.wLength = p.count + 1 ∧
        r.wIndex = p.resid ∧ r.bRequest = 0 := by
  intro name p h
  refine ⟨⟨CTRL_IN ||| CTRL_TYPE_VENDOR ||| CTRL_RECIPIENT_DEVICE,
           0, 0x80 ||| p.cmdid, p.resid, p.count + 1⟩, ?_, rfl, rfl, rfl, rfl⟩
  simp [readRequest, h]

/-- Claim C6 witness: the read request for DOA_VALUE has wValue
0x80 ||| 18 = 146, wIndex 20 and length 5. -/
theorem read_request_shape_witness :
    ∃ r : ReadRequest, readRequest "DOA_VALUE" = some r ∧
      r.wValue = 0x80 ||| 18 ∧ r.wLength = 4 + 1 ∧ r.wIndex = 20 ∧ r.bRequest = 0 :=
  read_request_shape "DOA_VALUE" ⟨20, 18, 4, "ro", "uint16"⟩ rfl

/-- Claim C7: discovery tries (0x2886, 0x001A) then (0x2886, 0x0018) and
wraps the first precise match in a session; the vendor-only fallback is
consulted only when neither precise candidate matches, and a bus with no
0x2886 device at all yields no session. -/
theorem find_priority :
    ∀ bus : List Device,
      (∀ d : Device, usbCoreFindVidPid bus 0x2886 0x001A = some d →
        find bus = some ⟨d⟩) ∧
      (usbCoreFindVidPid bus 0x2886 0x001A = none →
        (∀ d : Device, usbCoreFindVidPid bus 0x2886 0x0018 = some d →
          find bus = some ⟨d⟩) ∧
        (usbCoreFindVidPid bus 0x2886 0x0018 = none →
          (∀ d : Device, usbCoreFindVid bus 0x2886 = some d → find bus = some ⟨d⟩) ∧
          (usbCoreFindVid bus 0x2886 = none → find bus = none))) := by
  intro bus
  refine ⟨fun d h => ?_, fun h1 => ⟨fun d h => ?_, fun h2 => ⟨fun d h => ?_, fun h3 => ?_⟩⟩⟩
  · simp [find, findFirstPair, vids_pids, h]
  · simp [find, findFirstPair, vids_pids, h1, h]
  · simp [find, findFirstPair, vids_pids, h1, h2, h]
  · simp [find, findFirstPair, vids_pids, h1, h2, h3]

/-- Claim C7 witness: on a bus holding only a (0x2886, 0x0018) device, the
second candidate pair matches precisely and is selected. -/
theorem find_priority_witness :
    find [⟨0x2886, 0x0018, 7⟩] = some ⟨⟨0x2886, 0x0018, 7⟩⟩ :=
  ((find_priority [⟨0x2886, 0x0018, 7⟩]).2 rfl).1 ⟨0x2886, 0x0018, 7⟩ rfl

/-- Claim C8: reading DOA_VALUE on the raw response 0x00 0x2C 0x01 0x01
returns the bytes unchanged, and the caller-level reconstruction of the
polling loop turns them into status 0, angle 44 ||| (1 <<< 8) = 300 and
speech flag 1. -/
theorem doa_value_raw_bytes :
    read "DOA_VALUE" [0x00, 0x2C, 0x01, 0x01] = some (.ok (.bytes [0, 44, 1, 1])) ∧
    doaHandle [0, 44, 1, 1] = .ok (some (0, some (44 ||| (1 <<< 8)), some 1)) ∧
    44 ||| (1 <<< 8) = 300 :=
  ⟨rfl, rfl, by decide⟩

/-- Unfolding lemma for the Except monad: binding after a successful step
runs the continuation. -/
theorem ok_bind {β : Type} (a : Nat) (f : Nat → Except PyError β) :
    (Except.ok a : Except PyError Nat) >>= f = f a := rfl

/-- Claim C9: the DOA handling of the polling loop never raises IndexError
for any response length; on a non-empty response the angle is byte 1 or-ed
with byte 2 shifted left by 8 when at least 3 bytes are present, byte 1
alone when exactly 2 are present and absent below that, while the speech
flag is byte 3 exactly when more than 3 bytes are present. -/
theorem doa_handling_index_safe :
    ∀ doa : List Nat,
      (∃ r, doaHandle doa = Except.ok r) ∧
      (0 < doa.length →
        ∃ status angle speech,
          doaHandle doa = Except.ok (some (status, angle, speech)) ∧
          doa.get? 0 = some status ∧
          (3 ≤ doa.length → ∃ b1 b2, doa.get? 1 = some b1 ∧ doa.get? 2 = some b2 ∧
            angle = some (b1 ||| (b2 <<< 8))) ∧
          (doa.length = 2 → ∃ b1, doa.get? 1 = some b1 ∧ angle = some b1) ∧
          (doa.length < 2 → angle = none) ∧
          (3 < doa.length → ∃ b3, doa.get? 3 = some b3 ∧ speech = some b3) ∧
          (doa.length ≤ 3 → speech = none)) := by
  intro doa
  match doa with
  | [] =>
    exact ⟨⟨none, rfl⟩, fun h => absurd h (by decide)⟩
  | [a] =>
    have h1 : doaHandle [a] = Except.ok (some (a, none, none)) := by
      simp [doaHandle, pyIndex, ok_bind]
    refine ⟨⟨some (a, none, none), h1⟩,
      fun _ => ⟨a, none, none, h1, rfl, ?_, ?_, ?_, ?_, ?_⟩⟩
    · intro h; exact absurd h (by simp)
    · intro h; exact absurd h (by simp)
    · intro _; rfl
    · intro h; exact absurd h (by simp)
    · intro _; rfl
  | [a, b] =>
    have h1 : doaHandle [a, b] = Except.ok (some (a, some b, none)) := by
      simp [doaHandle, pyIndex, ok_bind]
    refine ⟨⟨some (a, some b, none), h1⟩,
      fun _ => ⟨a, some b, none, h1, rfl, ?_, ?_, ?_, ?_, ?_⟩⟩
    · intro h; exact absurd h (by simp)
    · intro _; exact ⟨b, rfl, rfl⟩
    · intro h; exact absurd h (by simp)
    · intro h; exact absurd h (by simp)
    · intro _; rfl
  | [a, b, c] =>
    have h1 : doaHandle [a, b, c]
        = Except.ok (some (a, some (b ||| (c <<< 8)), none)) := by
      simp [doaHandle, pyIndex, ok_bind]
    refine ⟨⟨some (a, some (b ||| (c <<< 8)), none), h1⟩,
      fun _ => ⟨a, some (b ||| (c <<< 8)), none, h1, rfl, ?_, ?_, ?_, ?_, ?_⟩⟩
    · intro _; exact ⟨b, c, rfl, rfl, rfl⟩
    · intro h; exact absurd h (by simp)
    · intro h; exact absurd h (by simp)
    · intro h; exact absurd h (by simp)
    · intro _; rfl
  | a :: b :: c :: d :: rest =>
    have h1 : doaHandle (a :: b :: c :: d :: rest)
        = Except.ok (some (a, some (b ||| (c <<< 8)), some d)) := by
      simp [doaHandle, pyIndex, ok_bind]
    refine ⟨⟨some (a, some (b ||| (c <<< 8)), some d), h1⟩,
      fun _ => ⟨a, some (b ||| (c <<< 8)), some d, h1, rfl, ?_, ?_, ?_, ?_, ?_⟩⟩
    · intro _; exact ⟨b, c, rfl, rfl, rfl⟩
    · intro h; simp only [List.length_cons] at h; omega
    · intro h; simp only [List.length_cons] at h; omega
    · intro _; exact ⟨d, rfl, rfl⟩
    · intro h; simp only [List.length_cons] at h; omega

/-- Claim C9 witness: instantiated at the 4-byte response 7 44 1 1. -/
theorem doa_handling_index_safe_witness :
    ∃ status angle speech,
      doaHandle [7, 44, 1, 1] = Except.ok (some (status, angle, speech)) ∧
      List.get? [7, 44, 1, 1] 0 = some status ∧
      (3 ≤ List.length [7, 44, 1, 1] →
        ∃ b1 b2, List.get? [7, 44, 1, 1] 1 = some b1 ∧
          List.get? [7, 44, 1, 1] 2 = some b2 ∧ angle = some (b1 ||| (b2 <<< 8))) ∧
      (List.length [7, 44, 1, 1] = 2 →
        ∃ b1, List.get? [7, 44, 1, 1] 1 = some b1 ∧ angle = some b1) ∧
      (List.length [7, 44, 1, 1] < 2 → angle = none) ∧
      (3 < List.length [7, 44, 1, 1] →
        ∃ b3, List.get? [7, 44, 1, 1] 3 = some b3 ∧ speech = some b3) ∧
      (List.length [7, 44, 1, 1] ≤ 3 → speech = none) :=
  (doa_handling_index_safe [7, 44, 1, 1]).2 (by decide)

/-- Claim C10: a radians register rejects with struct.error every raw
response shorter than count + 1 bytes instead of returning a shortened
sequence, while every register of a non-radians encoding returns the
response bytes unchanged whatever their number. -/
theorem radians_short_response_error :
    (∀ (name : String) (p : Param) (response : List Nat),
      PARAMETERS name = some p → p.dtype = "radians" →
      response.length < p.count + 1 →
      read name response = some (.error .structError)) ∧
    (∀ (name : String) (p : Param) (response : List Nat),
      PARAMETERS name = some p → p.dtype ≠ "radians" →
      read name response = some (.ok (.bytes response))) := by
  constructor
  · intro name p response h hdt hlen
    rcases PARAMETERS_cases name p h with ⟨hn, hp⟩ | ⟨hn, hp⟩ | ⟨hn, hp⟩ | ⟨hn, hp⟩
    · subst hp; exact absurd hdt (by decide)
    · subst hn; subst hp
      have hlen17 : response.length < 17 := hlen
      have hne : ¬(((response.drop 1).take 16).length = 4 * 4) := by
        simp only [List.length_take, List.length_drop]
        omega
      rw [read_eq_some "AEC_AZIMUTH_VALUES" ⟨33, 75, 16, "ro", "radians"⟩ response rfl,
        decodeResponse_radians_eq, if_neg hne]
    · subst hp; exact absurd hdt (by decide)
    · subst hp; exact absurd hdt (by decide)
  · intro name p response h hdt
    rcases PARAMETERS_cases name p h with ⟨hn, hp⟩ | ⟨hn, hp⟩ | ⟨hn, hp⟩ | ⟨hn, hp⟩
    · subst hn; subst hp
      exact read_eq_some "VERSION" ⟨48, 0, 3, "ro", "uint8"⟩ response rfl
    · subst hp; exact absurd rfl hdt
    · subst hn; subst hp
      exact read_eq_some "DOA_VALUE" ⟨20, 18, 4, "ro", "uint16"⟩ response rfl
    · subst hn; subst hp
      exact read_eq_some "REBOOT" ⟨48, 7, 1, "wo", "uint8"⟩ response rfl

/-- Claim C10 witness: a 1-byte response on the radians register fails with
struct.error, while a 2-byte response on the uint8 VERSION register comes
back unchanged. -/
theorem radians_short_response_error_witness :
    read "AEC_AZIMUTH_VALUES" [0] = some (.error .structError) ∧
    read "VERSION" [9, 9] = some (.ok (.bytes [9, 9])) :=
  ⟨radians_short_response_error.1 "AEC_AZIMUTH_VALUES"
      ⟨33, 75, 16, "ro", "radians"⟩ [0] rfl rfl (by decide),
   radians_short_response_error.2 "VERSION"
      ⟨48, 0, 3, "ro", "uint8"⟩ [9, 9] rfl (by decide)⟩
